import Mathlib

/-!
Shallow embedding of the FinPace client-side computation layer.

Money amounts, quantities and prices are embedded as exact rationals (ℚ);
ids and calendar fields as integers; nullable TypeScript fields as Option.
Redux reducers become pure functions from a state record and an action
payload to a new state record, translated case by case from
src/frontend/src/store/slices/investmentsSlice.ts (which holds the
investments slice and the budgets slice), the goals slice, and the
Dashboard/Transactions pages.
-/

/-- `Investment`, src/frontend/src/store/slices/investmentsSlice.ts lines 4-15. -/
structure Investment where
  id : Int
  ticker : String
  quantity : ℚ
  avg_buy_price : ℚ
  asset_type : String
  purchase_date : Option String
  notes : Option String
  user_id : Int
  created_at : String
  updated_at : Option String
deriving Repr, DecidableEq

/-- `InvestmentWithMarketData extends Investment`, investmentsSlice.ts lines 17-24. -/
structure InvestmentWithMarketData extends Investment where
  current_price : ℚ
  market_value : ℚ
  profit_loss : ℚ
  profit_loss_percentage : ℚ
  last_updated : String
  error : Option String
deriving Repr, DecidableEq

/-- `InvestmentsState`, investmentsSlice.ts lines 26-32. -/
structure InvestmentsState where
  investments : List Investment
  portfolioWithMarketData : List InvestmentWithMarketData
  investment : Option Investment
  loading : Bool
  error : Option String
deriving Repr, DecidableEq

/-- The market-data recomputation performed for a matching portfolio entry by the
`updateInvestment.fulfilled` reducer, investmentsSlice.ts lines 310-324: it keeps the
entry's cached `current_price`, recomputes `market_value`, `profit_loss` and
`profit_loss_percentage` from the payload's quantity and average buy price, and keeps
the entry's `last_updated`.  The spread of `action.payload` (a plain `Investment`)
leaves the optional `error` field unset. -/
def recalcMarketData (payload : Investment) (inv : InvestmentWithMarketData) :
    InvestmentWithMarketData :=
  let currentPrice := inv.current_price
  let marketValue := payload.quantity * currentPrice
  let costBasis := payload.quantity * payload.avg_buy_price
  let profitLoss := marketValue - costBasis
  let profitLossPercentage := (profitLoss / costBasis) * 100
  { toInvestment := payload
    current_price := currentPrice
    market_value := marketValue
    profit_loss := profitLoss
    profit_loss_percentage := profitLossPercentage
    last_updated := inv.last_updated
    error := none }

/-- One step of the `portfolioWithMarketData` map in `updateInvestment.fulfilled`,
investmentsSlice.ts lines 308-327: a matching entry is recomputed with
`recalcMarketData`, any other entry is returned unchanged. -/
def updatePortfolioEntry (payload : Investment) (inv : InvestmentWithMarketData) :
    InvestmentWithMarketData :=
  if inv.id = payload.id then recalcMarketData payload inv else inv

/-- One step of the `investments` map in `updateInvestment.fulfilled`,
investmentsSlice.ts lines 303-305. -/
def replaceById (payload : Investment) (inv : Investment) : Investment :=
  if inv.id = payload.id then payload else inv

/-- The update of `state.investment` in `updateInvestment.fulfilled`,
investmentsSlice.ts lines 300-302 (`state.investment?.id === action.payload.id`). -/
def updateCurrentInvestment (cur : Option Investment) (payload : Investment) :
    Option Investment :=
  match cur with
  | some inv => if inv.id = payload.id then some payload else some inv
  | none => none

/-- The `updateInvestment.fulfilled` reducer, investmentsSlice.ts lines 298-328:
sets `loading` to false, swaps the payload into `investment` and `investments`
when ids match, and recomputes market data for the matching portfolio entry.
The reducer does not touch `error`. -/
def updateInvestmentFulfilled (s : InvestmentsState) (payload : Investment) :
    InvestmentsState :=
  { investments := s.investments.map (replaceById payload)
    portfolioWithMarketData := s.portfolioWithMarketData.map (updatePortfolioEntry payload)
    investment := updateCurrentInvestment s.investment payload
    loading := false
    error := s.error }

/-- The common body of every `.rejected` case of the investments slice
(getInvestments, getPortfolioWithMarketData, getInvestment, createInvestment,
updateInvestment, deleteInvestment), e.g. investmentsSlice.ts lines 246-249 and
329-332: `state.loading = false; state.error = action.payload as string;`. -/
def investmentsRejected (s : InvestmentsState) (msg : String) : InvestmentsState :=
  { s with loading := false, error := some msg }

/-- Modelled from the spec: construction-time validation of a holding.  The backend
that validates and persists investments is not under src/ (only the client thunks
that call it are), so the validity predicate follows the spec: quantity and
avg_buy_price are positive decimals, and a non-positive quantity or buy price is
rejected at construction with `InvalidHolding`. -/
def validHolding (inv : Investment) : Prop :=
  0 < inv.quantity ∧ 0 < inv.avg_buy_price

instance (inv : Investment) : Decidable (validHolding inv) := by
  unfold validHolding; infer_instance

/-- `Budget`, investmentsSlice.ts (budgets slice section) interface Budget. -/
structure Budget where
  id : Int
  category_id : Int
  amount : ℚ
  month : Int
  year : Int
  user_id : Int
  created_at : String
  updated_at : Option String
deriving Repr, DecidableEq

/-- `BudgetWithCategory extends Budget`. -/
structure BudgetWithCategory extends Budget where
  category_name : String
deriving Repr, DecidableEq

/-- `BudgetWithProgress extends BudgetWithCategory`. -/
structure BudgetWithProgress extends BudgetWithCategory where
  spent_amount : ℚ
  remaining_amount : ℚ
  percentage_used : ℚ
deriving Repr, DecidableEq

/-- `BudgetsState`. -/
structure BudgetsState where
  budgets : List BudgetWithCategory
  budgetsWithProgress : List BudgetWithProgress
  budget : Option BudgetWithCategory
  loading : Bool
  error : Option String
deriving Repr, DecidableEq

/-- The object spread `{ ...budget, ...action.payload }` on a `BudgetWithCategory`:
every `Budget` field is overwritten by the payload, `category_name` survives. -/
def mergeBudgetWithCategory (b : BudgetWithCategory) (payload : Budget) :
    BudgetWithCategory :=
  { toBudget := payload, category_name := b.category_name }

/-- The object spread `{ ...budget, ...action.payload }` on a `BudgetWithProgress`,
used by the `updateBudget.fulfilled` reducer (lines 666-670 of the budgets slice):
the payload overwrites the `Budget` fields while `category_name`, `spent_amount`,
`remaining_amount` and `percentage_used` keep their cached values. -/
def mergeBudgetWithProgress (b : BudgetWithProgress) (payload : Budget) :
    BudgetWithProgress :=
  { toBudgetWithCategory := mergeBudgetWithCategory b.toBudgetWithCategory payload
    spent_amount := b.spent_amount
    remaining_amount := b.remaining_amount
    percentage_used := b.percentage_used }

/-- The `updateBudget.fulfilled` reducer of the budgets slice (lines 652-671):
sets loading to false and merges the payload over the current budget, the
`budgets` list and the `budgetsWithProgress` list wherever the id matches. -/
def updateBudgetFulfilled (s : BudgetsState) (payload : Budget) : BudgetsState :=
  { budgets := s.budgets.map fun b =>
      if b.id = payload.id then mergeBudgetWithCategory b payload else b
    budgetsWithProgress := s.budgetsWithProgress.map fun b =>
      if b.id = payload.id then mergeBudgetWithProgress b payload else b
    budget :=
      match s.budget with
      | some b => if b.id = payload.id then some (mergeBudgetWithCategory b payload) else some b
      | none => none
    loading := false
    error := s.error }

/-- The common body of every `.rejected` case of the budgets slice
(getBudgets, getBudgetsWithProgress, getBudget, createBudget, updateBudget,
deleteBudget), e.g. lines 614-617: `state.loading = false;
state.error = action.payload as string;`. -/
def budgetsRejected (s : BudgetsState) (msg : String) : BudgetsState :=
  { s with loading := false, error := some msg }

/-- `Goal`, goals slice lines 4-15. -/
structure Goal where
  id : Int
  name : String
  description : Option String
  target_amount : ℚ
  current_amount : ℚ
  deadline : Option String
  status : String
  user_id : Int
  created_at : String
  updated_at : Option String
deriving Repr, DecidableEq

/-- `GoalWithProgress extends Goal`, goals slice lines 17-19. -/
structure GoalWithProgress extends Goal where
  progress_percentage : ℚ
deriving Repr, DecidableEq

/-- `GoalsState`, goals slice lines 21-26. -/
structure GoalsState where
  goals : List GoalWithProgress
  goal : Option GoalWithProgress
  loading : Bool
  error : Option String
deriving Repr, DecidableEq

/-- The progress-percentage computation shared by `createGoal.fulfilled`
(goals slice lines 240-242) and `updateGoal.fulfilled` (lines 264-266):
`action.payload.target_amount > 0 ? (current_amount / target_amount) * 100 : 0`. -/
def goalProgressPercentage (payload : Goal) : ℚ :=
  if 0 < payload.target_amount then
    (payload.current_amount / payload.target_amount) * 100
  else 0

/-- The `createGoal.fulfilled` reducer, goals slice lines 237-249: pushes the
payload with its computed progress percentage onto `goals`. -/
def createGoalFulfilled (s : GoalsState) (payload : Goal) : GoalsState :=
  { s with
    loading := false
    goals := s.goals ++ [{ toGoal := payload
                           progress_percentage := goalProgressPercentage payload }] }

/-- The `updateGoal.fulfilled` reducer, goals slice lines 260-282. -/
def updateGoalFulfilled (s : GoalsState) (payload : Goal) : GoalsState :=
  { goals := s.goals.map fun g =>
      if g.id = payload.id then
        { toGoal := payload, progress_percentage := goalProgressPercentage payload }
      else g
    goal :=
      match s.goal with
      | some g =>
          if g.id = payload.id then
            some { toGoal := payload, progress_percentage := goalProgressPercentage payload }
          else some g
      | none => none
    loading := false
    error := s.error }

/-- The shape of a transaction as consumed by the Dashboard and Transactions
pages (`t.type`, `t.amount`, plus the displayed fields). -/
structure PageTransaction where
  id : Int
  amount : ℚ
  type : String
  description : String
  category_name : String
  date : String
deriving Repr, DecidableEq

/-- Dashboard.tsx lines 59-61: income total,
`transactions.filter(t => t.type === 'income').reduce((sum, t) => sum + t.amount, 0)`. -/
def dashboardIncome (ts : List PageTransaction) : ℚ :=
  (ts.filter fun t => t.type = "income").foldl (fun sum t => sum + t.amount) 0

/-- Dashboard.tsx lines 63-65: expense total,
`transactions.filter(t => t.type === 'expense').reduce((sum, t) => sum + t.amount, 0)`. -/
def dashboardExpense (ts : List PageTransaction) : ℚ :=
  (ts.filter fun t => t.type = "expense").foldl (fun sum t => sum + t.amount) 0

/-- Transactions.tsx lines 115-117: `totalIncome` over the filtered list. -/
def transactionsTotalIncome (ts : List PageTransaction) : ℚ :=
  (ts.filter fun t => t.type = "income").foldl (fun sum t => sum + t.amount) 0

/-- Transactions.tsx lines 119-121: `totalExpense` over the filtered list. -/
def transactionsTotalExpense (ts : List PageTransaction) : ℚ :=
  (ts.filter fun t => t.type = "expense").foldl (fun sum t => sum + t.amount) 0

/-- Transactions.tsx line 123: `netAmount = totalIncome - totalExpense`. -/
def transactionsNetAmount (ts : List PageTransaction) : ℚ :=
  transactionsTotalIncome ts - transactionsTotalExpense ts

/-- The five `useState(0)` summary cells of Dashboard.tsx lines 23-27. -/
structure DashboardSummary where
  totalIncome : ℚ
  totalExpense : ℚ
  netSavings : ℚ
  totalPortfolioValue : ℚ
  totalPortfolioProfit : ℚ
deriving Repr, DecidableEq

/-- Initial summary state, Dashboard.tsx lines 23-27 (`useState(0)` for each cell). -/
def dashboardSummaryInit : DashboardSummary :=
  { totalIncome := 0, totalExpense := 0, netSavings := 0
    totalPortfolioValue := 0, totalPortfolioProfit := 0 }

/-- The summary-recomputation effect of Dashboard.tsx lines 56-82: the
transaction totals are recomputed only when `transactions.length > 0`, and the
portfolio totals only when `portfolioWithMarketData.length > 0`; otherwise the
previous cell values are retained. -/
def dashboardSummaryEffect (prev : DashboardSummary)
    (transactions : List PageTransaction)
    (portfolio : List InvestmentWithMarketData) : DashboardSummary :=
  let s1 :=
    if 0 < transactions.length then
      let income := dashboardIncome transactions
      let expense := dashboardExpense transactions
      { prev with totalIncome := income, totalExpense := expense
                  netSavings := income - expense }
    else prev
  if 0 < portfolio.length then
    let value := portfolio.foldl (fun sum inv => sum + inv.market_value) 0
    let profit := portfolio.foldl (fun sum inv => sum + inv.profit_loss) 0
    { s1 with totalPortfolioValue := value, totalPortfolioProfit := profit }
  else s1

/-- What the Dashboard budget-progress card renders for one budget,
Dashboard.tsx lines 309-335. -/
structure BudgetCardView where
  shownSpent : ℚ
  shownAmount : ℚ
  barColor : String
  barWidthPercent : ℚ
  shownPercentage : ℚ
  shownRemaining : ℚ
deriving Repr, DecidableEq

/-- The rendering of one budget card, Dashboard.tsx lines 309-335: the label
shows the raw `percentage_used` (only formatted with `toFixed(0)`), the bar
width is `Math.min(budget.percentage_used, 100)`, the color thresholds are at
100 and 80, and `spent_amount`, `amount`, `remaining_amount` are shown as is. -/
def renderBudgetCard (b : BudgetWithProgress) : BudgetCardView :=
  { shownSpent := b.spent_amount
    shownAmount := b.amount
    barColor :=
      if 100 < b.percentage_used then "bg-red-600"
      else if 80 < b.percentage_used then "bg-yellow-500"
      else "bg-green-500"
    barWidthPercent := min b.percentage_used 100
    shownPercentage := b.percentage_used
    shownRemaining := b.remaining_amount }

/-- The Budget Progress section of the Dashboard, lines 308-336: it maps
`renderBudgetCard` over `budgetsWithProgress.slice(0, 3)` and, being a render,
returns the store slice it read unchanged (no dispatch, no mutation). -/
def dashboardRenderBudgets (s : List BudgetWithProgress) :
    List BudgetCardView × List BudgetWithProgress :=
  ((s.take 3).map renderBudgetCard, s)

/-! Concrete sample values used by the witness theorems. -/

/-- A sample `updateInvestment.fulfilled` payload (the spec's worked example:
quantity 10, average buy price 5). -/
def samplePayload : Investment :=
  { id := 1, ticker := "AAPL", quantity := 10, avg_buy_price := 5
    asset_type := "stock", purchase_date := none, notes := none
    user_id := 1, created_at := "2025-01-01", updated_at := none }

/-- A sample cached portfolio entry with a last fetched price of 8. -/
def sampleEntry : InvestmentWithMarketData :=
  { toInvestment :=
      { id := 1, ticker := "AAPL", quantity := 4, avg_buy_price := 6
        asset_type := "stock", purchase_date := none, notes := none
        user_id := 1, created_at := "2025-01-01", updated_at := none }
    current_price := 8, market_value := 32, profit_loss := 8
    profit_loss_percentage := 100 / 3, last_updated := "2025-01-02"
    error := none }

/-- A sample investments-slice state holding the sample entry. -/
def sampleInvState : InvestmentsState :=
  { investments := [sampleEntry.toInvestment]
    portfolioWithMarketData := [sampleEntry]
    investment := none, loading := true, error := none }

/-! Helper lemmas. -/

lemma replaceById_idem (p x : Investment) :
    replaceById p (replaceById p x) = replaceById p x := by
  by_cases h : x.id = p.id <;> simp [replaceById, h]

lemma updateCurrentInvestment_idem (c : Option Investment) (p : Investment) :
    updateCurrentInvestment (updateCurrentInvestment c p) p = updateCurrentInvestment c p := by
  cases c with
  | none => rfl
  | some inv => by_cases h : inv.id = p.id <;> simp [updateCurrentInvestment, h]

lemma recalcMarketData_id (p : Investment) (e : InvestmentWithMarketData) :
    (recalcMarketData p e).id = p.id := rfl

lemma updatePortfolioEntry_idem (p : Investment) (e : InvestmentWithMarketData) :
    updatePortfolioEntry p (updatePortfolioEntry p e) = updatePortfolioEntry p e := by
  by_cases h : e.id = p.id
  · simp only [updatePortfolioEntry, h, if_pos, recalcMarketData_id, if_true]
    rfl
  · simp [updatePortfolioEntry, h]

lemma map_self_idem {α : Type} (f : α → α) (hf : ∀ x, f (f x) = f x) (l : List α) :
    (l.map f).map f = l.map f := by
  rw [List.map_map]
  exact List.map_congr_left fun x _ => hf x

/-- C1: with holdings validated at construction (spec-modelled `validHolding`,
rejecting non-positive quantity or average buy price as `InvalidHolding`), the
division `(profit_loss / cost_basis) * 100` performed by the
`updateInvestment.fulfilled` recompute is only ever evaluated with a strictly
positive cost basis, so it never produces a NaN or an infinity. -/
theorem holding_guard_profit_loss_percentage (p : Investment) (e : InvestmentWithMarketData) :
    ((p.quantity ≤ 0 ∨ p.avg_buy_price ≤ 0) → ¬ validHolding p) ∧
    (validHolding p →
      0 < p.quantity * p.avg_buy_price ∧
      (recalcMarketData p e).profit_loss_percentage
        = (p.quantity * e.current_price - p.quantity * p.avg_buy_price)
            / (p.quantity * p.avg_buy_price) * 100) := by
  constructor
  · rintro (h | h) ⟨h1, h2⟩ <;> linarith
  · rintro ⟨h1, h2⟩
    exact ⟨mul_pos h1 h2, rfl⟩

/-- Witness for C1 at the spec's worked example (quantity 10, buy price 5,
current price 8): the holding is valid, the cost basis is positive, and the
recomputed profit/loss percentage is 60. -/
theorem holding_guard_profit_loss_percentage_witness :
    validHolding samplePayload ∧
    0 < samplePayload.quantity * samplePayload.avg_buy_price ∧
    (recalcMarketData samplePayload sampleEntry).profit_loss_percentage = 60 := by
  refine ⟨by decide, ((holding_guard_profit_loss_percentage samplePayload sampleEntry).2 (by decide)).1, ?_⟩
  rw [((holding_guard_profit_loss_percentage samplePayload sampleEntry).2 (by decide)).2]
  norm_num [samplePayload, sampleEntry]

/-- C2: the `updateInvestment.fulfilled` reducer maps `updatePortfolioEntry`
over the cached portfolio, and that per-entry update never changes
`current_price` or `last_updated`; for the matching entry the recompute uses
the entry's previously cached price, so an edit preserves the last fetched
price and never discards the cached market data to zero. -/
theorem update_investment_preserves_cached_price (s : InvestmentsState) (p : Investment) :
    (updateInvestmentFulfilled s p).portfolioWithMarketData
      = s.portfolioWithMarketData.map (updatePortfolioEntry p) ∧
    ∀ e : InvestmentWithMarketData,
      (updatePortfolioEntry p e).current_price = e.current_price ∧
      (updatePortfolioEntry p e).last_updated = e.last_updated ∧
      (e.id = p.id →
        updatePortfolioEntry p e = recalcMarketData p e ∧
        (recalcMarketData p e).market_value = p.quantity * e.current_price) := by
  refine ⟨rfl, fun e => ?_⟩
  by_cases h : e.id = p.id <;> simp [updatePortfolioEntry, h, recalcMarketData]

/-- Witness for C2 at the sample state: the matching entry keeps its cached
price 8 and its `last_updated` stamp across the recompute. -/
theorem update_investment_preserves_cached_price_witness :
    (updatePortfolioEntry samplePayload sampleEntry).current_price = sampleEntry.current_price ∧
    (updatePortfolioEntry samplePayload sampleEntry).last_updated = sampleEntry.last_updated ∧
    updatePortfolioEntry samplePayload sampleEntry = recalcMarketData samplePayload sampleEntry := by
  obtain ⟨-, h⟩ := update_investment_preserves_cached_price sampleInvState samplePayload
  obtain ⟨h1, h2, h3⟩ := h sampleEntry
  exact ⟨h1, h2, (h3 (by decide)).1⟩

/-- C3: for a cached portfolio entry matching the payload id, the recomputed
entry lands in the new portfolio with `market_value` equal to the payload
quantity times the cached current price and `profit_loss` equal to market
value minus the payload's cost basis. -/
theorem update_investment_market_value_profit_loss (s : InvestmentsState)
    (p : Investment) (e : InvestmentWithMarketData)
    (hmem : e ∈ s.portfolioWithMarketData) (hid : e.id = p.id) :
    updatePortfolioEntry p e ∈ (updateInvestmentFulfilled s p).portfolioWithMarketData ∧
    (updatePortfolioEntry p e).market_value = p.quantity * e.current_price ∧
    (updatePortfolioEntry p e).profit_loss
      = (updatePortfolioEntry p e).market_value - p.quantity * p.avg_buy_price := by
  refine ⟨List.mem_map_of_mem _ hmem, ?_, ?_⟩ <;>
    simp [updatePortfolioEntry, hid, recalcMarketData]

/-- Witness for C3 at the sample state: the recomputed sample entry has
market value 10 * 8 = 80 and profit/loss 80 - 50 = 30 (the spec's worked
example). -/
theorem update_investment_market_value_profit_loss_witness :
    sampleEntry ∈ sampleInvState.portfolioWithMarketData ∧
    (updatePortfolioEntry samplePayload sampleEntry).market_value = 80 ∧
    (updatePortfolioEntry samplePayload sampleEntry).profit_loss = 30 := by
  have h := update_investment_market_value_profit_loss sampleInvState samplePayload sampleEntry
    (by simp [sampleInvState]) (by decide)
  have hmv : (updatePortfolioEntry samplePayload sampleEntry).market_value = 80 := by
    rw [h.2.1]; norm_num [samplePayload, sampleEntry]
  have hpl : (updatePortfolioEntry samplePayload sampleEntry).profit_loss = 30 := by
    rw [h.2.2, hmv]; norm_num [samplePayload]
  exact ⟨by simp [sampleInvState], hmv, hpl⟩

/-- C8: the `updateInvestment.fulfilled` reducer is idempotent — applying it
twice with the identical action yields the same state as applying it once —
and deterministic: identical (state, action) inputs produce identical
outputs (no hidden state). -/
theorem update_investment_fulfilled_idempotent (s : InvestmentsState) (p : Investment) :
    updateInvestmentFulfilled (updateInvestmentFulfilled s p) p
      = updateInvestmentFulfilled s p ∧
    ∀ (s2 : InvestmentsState) (p2 : Investment), s = s2 → p = p2 →
      updateInvestmentFulfilled s p = updateInvestmentFulfilled s2 p2 := by
  constructor
  · have h1 := map_self_idem _ (replaceById_idem p) s.investments
    have h2 := map_self_idem _ (updatePortfolioEntry_idem p) s.portfolioWithMarketData
    have h3 := updateCurrentInvestment_idem s.investment p
    simp [updateInvestmentFulfilled, h1, h2, h3]
  · rintro s2 p2 rfl rfl
    rfl

/-- Witness for C8 at the sample state: the double application agrees with the
single one, and equal inputs give equal outputs. -/
theorem update_investment_fulfilled_idempotent_witness :
    updateInvestmentFulfilled (updateInvestmentFulfilled sampleInvState samplePayload) samplePayload
      = updateInvestmentFulfilled sampleInvState samplePayload ∧
    updateInvestmentFulfilled sampleInvState samplePayload
      = updateInvestmentFulfilled sampleInvState samplePayload := by
  obtain ⟨h1, h2⟩ := update_investment_fulfilled_idempotent sampleInvState samplePayload
  exact ⟨h1, h2 sampleInvState samplePayload rfl rfl⟩

/-- C10: every `.rejected` reducer of the investments and budgets slices (all of
which share the body embedded by `investmentsRejected` and `budgetsRejected`)
changes only `loading` (to false) and `error` (to the rejection payload) and
leaves every cached collection — `investments`, `portfolioWithMarketData`,
`investment`, `budgets`, `budgetsWithProgress`, `budget` — unchanged. -/
theorem rejected_reducers_only_touch_loading_error (s : InvestmentsState)
    (bs : BudgetsState) (msg msg2 : String) :
    (investmentsRejected s msg).investments = s.investments ∧
    (investmentsRejected s msg).portfolioWithMarketData = s.portfolioWithMarketData ∧
    (investmentsRejected s msg).investment = s.investment ∧
    (investmentsRejected s msg).loading = false ∧
    (investmentsRejected s msg).error = some msg ∧
    (budgetsRejected bs msg2).budgets = bs.budgets ∧
    (budgetsRejected bs msg2).budgetsWithProgress = bs.budgetsWithProgress ∧
    (budgetsRejected bs msg2).budget = bs.budget ∧
    (budgetsRejected bs msg2).loading = false ∧
    (budgetsRejected bs msg2).error = some msg2 :=
  ⟨rfl, rfl, rfl, rfl, rfl, rfl, rfl, rfl, rfl, rfl⟩

/-- A cached budget-progress entry: limit 100, spent 50, so remaining 50 and
50% used, as a backend progress read would return it. -/
def sampleBudgetProgress : BudgetWithProgress :=
  { toBudgetWithCategory :=
      { toBudget :=
          { id := 1, category_id := 7, amount := 100, month := 5, year := 2025
            user_id := 1, created_at := "2025-05-01", updated_at := none }
        category_name := "Food" }
    spent_amount := 50, remaining_amount := 50, percentage_used := 50 }

/-- An `updateBudget.fulfilled` payload raising the same budget's amount to 200. -/
def sampleBudgetUpdate : Budget :=
  { id := 1, category_id := 7, amount := 200, month := 5, year := 2025
    user_id := 1, created_at := "2025-05-01", updated_at := some "2025-05-02" }

/-- A budgets-slice state caching the sample progress entry. -/
def sampleBudgetsState : BudgetsState :=
  { budgets := [sampleBudgetProgress.toBudgetWithCategory]
    budgetsWithProgress := [sampleBudgetProgress]
    budget := none, loading := true, error := none }

/-- C4 (evidence of a code bug): the `updateBudget.fulfilled` reducer does not
preserve `remaining_amount = amount - spent_amount`.  Starting from a state
whose single cached entry satisfies the relation (amount 100, spent 50,
remaining 50) and applying the reducer with a payload that raises the amount
to 200, the resulting entry has amount 200 and spent 50 but still
remaining 50, and 50 ≠ 200 - 50. -/
theorem update_budget_fulfilled_breaks_remaining_invariant :
    sampleBudgetProgress.remaining_amount
        = sampleBudgetProgress.amount - sampleBudgetProgress.spent_amount ∧
    ((updateBudgetFulfilled sampleBudgetsState sampleBudgetUpdate).budgetsWithProgress.map
        fun e => (e.amount, e.spent_amount, e.remaining_amount))
      = [(200, 50, 50)] ∧
    ∃ e ∈ (updateBudgetFulfilled sampleBudgetsState sampleBudgetUpdate).budgetsWithProgress,
      e.remaining_amount ≠ e.amount - e.spent_amount := by
  refine ⟨by norm_num [sampleBudgetProgress], ?_, ?_⟩
  · simp [updateBudgetFulfilled, sampleBudgetsState, sampleBudgetProgress,
      sampleBudgetUpdate, mergeBudgetWithProgress, mergeBudgetWithCategory]
  · refine ⟨mergeBudgetWithProgress sampleBudgetProgress sampleBudgetUpdate, ?_, ?_⟩
    · simp [updateBudgetFulfilled, sampleBudgetsState, sampleBudgetProgress, sampleBudgetUpdate]
    · norm_num [mergeBudgetWithProgress, mergeBudgetWithCategory,
        sampleBudgetProgress, sampleBudgetUpdate]

/-- An income transaction for the witnesses. -/
def sampleIncomeTx : PageTransaction :=
  { id := 1, amount := 100, type := "income", description := "salary"
    category_name := "Salary", date := "2025-05-01" }

/-- An expense transaction for the witnesses. -/
def sampleExpenseTx : PageTransaction :=
  { id := 2, amount := 40, type := "expense", description := "groceries"
    category_name := "Food", date := "2025-05-02" }

/-- A sample transaction list with one income and one expense entry. -/
def sampleTxs : List PageTransaction := [sampleIncomeTx, sampleExpenseTx]

lemma foldl_add_amount (l : List PageTransaction) (a : ℚ) :
    l.foldl (fun sum t => sum + t.amount) a = a + (l.map fun t => t.amount).sum := by
  induction l generalizing a with
  | nil => simp
  | cons t ts ih => simp only [List.foldl_cons, List.map_cons, List.sum_cons, ih]; ring

/-- C5: the Dashboard summary totals and the Transactions page totals each sum
exactly the entries of the corresponding type — the expense total is the sum of
the amounts of the expense-typed entries, the income total the sum of the
income-typed entries, and every income-typed entry is excluded from the
expense filter. -/
theorem totals_sum_exactly_expense_entries (ts : List PageTransaction) :
    dashboardExpense ts = ((ts.filter fun t => t.type = "expense").map fun t => t.amount).sum ∧
    dashboardIncome ts = ((ts.filter fun t => t.type = "income").map fun t => t.amount).sum ∧
    transactionsTotalExpense ts
      = ((ts.filter fun t => t.type = "expense").map fun t => t.amount).sum ∧
    transactionsTotalIncome ts
      = ((ts.filter fun t => t.type = "income").map fun t => t.amount).sum ∧
    ∀ t ∈ ts, t.type = "income" → t ∉ ts.filter fun t => t.type = "expense" := by
  refine ⟨?_, ?_, ?_, ?_, ?_⟩
  · simp [dashboardExpense, foldl_add_amount]
  · simp [dashboardIncome, foldl_add_amount]
  · simp [transactionsTotalExpense, foldl_add_amount]
  · simp [transactionsTotalIncome, foldl_add_amount]
  · intro t _ hinc hmem
    have hexp := (List.mem_filter.mp hmem).2
    rw [hinc] at hexp
    simp at hexp

/-- Witness for C5 on the sample list: the expense total is the sum over the
expense filter, evaluates to 40, and the income entry is not in the expense
filter. -/
theorem totals_sum_exactly_expense_entries_witness :
    dashboardExpense sampleTxs
      = ((sampleTxs.filter fun t => t.type = "expense").map fun t => t.amount).sum ∧
    dashboardExpense sampleTxs = 40 ∧
    transactionsTotalIncome sampleTxs = 100 ∧
    sampleIncomeTx ∉ sampleTxs.filter fun t => t.type = "expense" := by
  obtain ⟨h1, -, -, h4, h5⟩ := totals_sum_exactly_expense_entries sampleTxs
  refine ⟨h1, ?_, ?_, h5 sampleIncomeTx (by simp [sampleTxs]) rfl⟩
  · rw [h1]; simp [sampleTxs, sampleIncomeTx, sampleExpenseTx]
  · rw [h4]; simp [sampleTxs, sampleIncomeTx, sampleExpenseTx]

/-- A sample goal payload matching the spec's worked example: target 200,
current 50, so 25% progress. -/
def sampleGoal : Goal :=
  { id := 1, name := "Emergency fund", description := none
    target_amount := 200, current_amount := 50, deadline := none
    status := "active", user_id := 1, created_at := "2025-01-01", updated_at := none }

/-- A sample goal payload with a zero target amount. -/
def sampleZeroGoal : Goal :=
  { id := 2, name := "Degenerate", description := none
    target_amount := 0, current_amount := 50, deadline := none
    status := "active", user_id := 1, created_at := "2025-01-01", updated_at := none }

/-- An empty goals-slice state. -/
def sampleGoalsState : GoalsState :=
  { goals := [], goal := none, loading := true, error := none }

/-- C6: the progress percentage assigned by the `createGoal.fulfilled` and
`updateGoal.fulfilled` reducers is `(current_amount / target_amount) * 100`
only when the target amount is strictly positive; for a zero-or-negative
target it is 0 and the division is never performed; both reducers store
exactly this guarded value. -/
theorem goal_progress_guard (p : Goal) (s : GoalsState) :
    (0 < p.target_amount →
      goalProgressPercentage p = p.current_amount / p.target_amount * 100) ∧
    (p.target_amount ≤ 0 → goalProgressPercentage p = 0) ∧
    (createGoalFulfilled s p).goals
      = s.goals ++ [{ toGoal := p, progress_percentage := goalProgressPercentage p }] ∧
    (updateGoalFulfilled s p).goals
      = s.goals.map fun g =>
          if g.id = p.id then
            { toGoal := p, progress_percentage := goalProgressPercentage p }
          else g := by
  refine ⟨?_, ?_, rfl, rfl⟩
  · intro h
    simp only [goalProgressPercentage, if_pos h]
  · intro h
    simp only [goalProgressPercentage, if_neg (not_lt.mpr h)]

/-- Witness for C6: the sample goal (target 200, current 50) gets the divided
percentage, which evaluates to 25, and the zero-target goal gets 0. -/
theorem goal_progress_guard_witness :
    goalProgressPercentage sampleGoal
      = sampleGoal.current_amount / sampleGoal.target_amount * 100 ∧
    goalProgressPercentage sampleGoal = 25 ∧
    goalProgressPercentage sampleZeroGoal = 0 := by
  obtain ⟨h1, -, -, -⟩ := goal_progress_guard sampleGoal sampleGoalsState
  obtain ⟨-, h2, -, -⟩ := goal_progress_guard sampleZeroGoal sampleGoalsState
  have hpos : (0 : ℚ) < sampleGoal.target_amount := by norm_num [sampleGoal]
  refine ⟨h1 hpos, ?_, h2 (by norm_num [sampleZeroGoal])⟩
  rw [h1 hpos]; norm_num [sampleGoal]

/-- An overspent cached budget entry: limit 100, spent 150, remaining -50,
150% used (the spec's overspend example). -/
def sampleOverspent : BudgetWithProgress :=
  { toBudgetWithCategory :=
      { toBudget :=
          { id := 2, category_id := 9, amount := 100, month := 5, year := 2025
            user_id := 1, created_at := "2025-05-01", updated_at := none }
        category_name := "Dining" }
    spent_amount := 150, remaining_amount := -50, percentage_used := 150 }

/-- C7: the Dashboard budget card shows the raw `percentage_used` (values over
100 included) — only the progress-bar width is capped at
`min(percentage_used, 100)` — and the render maps over the store slice without
modifying it. -/
theorem dashboard_budget_rendering_unclamped (b : BudgetWithProgress)
    (l : List BudgetWithProgress) :
    (renderBudgetCard b).shownPercentage = b.percentage_used ∧
    (renderBudgetCard b).barWidthPercent = min b.percentage_used 100 ∧
    (100 < b.percentage_used →
      100 < (renderBudgetCard b).shownPercentage ∧
      (renderBudgetCard b).barWidthPercent = 100) ∧
    (dashboardRenderBudgets l).1 = (l.take 3).map renderBudgetCard ∧
    (dashboardRenderBudgets l).2 = l := by
  refine ⟨rfl, rfl, ?_, rfl, rfl⟩
  intro h
  exact ⟨h, min_eq_right h.le⟩

/-- Witness for C7 on the overspent sample entry: the shown percentage is the
raw 150, above 100, while the bar width is capped at 100, and rendering leaves
the store list unchanged. -/
theorem dashboard_budget_rendering_unclamped_witness :
    (renderBudgetCard sampleOverspent).shownPercentage = sampleOverspent.percentage_used ∧
    100 < (renderBudgetCard sampleOverspent).shownPercentage ∧
    (renderBudgetCard sampleOverspent).barWidthPercent = 100 ∧
    (dashboardRenderBudgets [sampleOverspent]).2 = [sampleOverspent] := by
  obtain ⟨h1, -, h3, -, h5⟩ :=
    dashboard_budget_rendering_unclamped sampleOverspent [sampleOverspent]
  obtain ⟨h6, h7⟩ := h3 (by norm_num [sampleOverspent])
  exact ⟨h1, h6, h7, h5⟩

/-- Previous summary-cell values for the staleness witness. -/
def samplePrevSummary : DashboardSummary :=
  { totalIncome := 7, totalExpense := 3, netSavings := 4
    totalPortfolioValue := 11, totalPortfolioProfit := 2 }

/-- C9: the Dashboard summary effect recomputes the transaction totals only
when the fetched transactions list is non-empty and the portfolio totals only
when the portfolio list is non-empty; on an empty list the previous cell
values are retained (so the cells can be stale relative to the displayed
empty lists). -/
theorem dashboard_summary_retains_totals_on_empty (prev : DashboardSummary)
    (ts : List PageTransaction) (pf : List InvestmentWithMarketData) :
    (ts = [] →
      (dashboardSummaryEffect prev ts pf).totalIncome = prev.totalIncome ∧
      (dashboardSummaryEffect prev ts pf).totalExpense = prev.totalExpense ∧
      (dashboardSummaryEffect prev ts pf).netSavings = prev.netSavings) ∧
    (pf = [] →
      (dashboardSummaryEffect prev ts pf).totalPortfolioValue = prev.totalPortfolioValue ∧
      (dashboardSummaryEffect prev ts pf).totalPortfolioProfit = prev.totalPortfolioProfit) ∧
    (0 < ts.length →
      (dashboardSummaryEffect prev ts pf).totalIncome = dashboardIncome ts ∧
      (dashboardSummaryEffect prev ts pf).totalExpense = dashboardExpense ts ∧
      (dashboardSummaryEffect prev ts pf).netSavings
        = dashboardIncome ts - dashboardExpense ts) := by
  refine ⟨?_, ?_, ?_⟩
  · rintro rfl
    by_cases hp : 0 < pf.length <;> simp [dashboardSummaryEffect, hp]
  · rintro rfl
    by_cases ht : 0 < ts.length <;> simp [dashboardSummaryEffect, ht]
  · intro ht
    by_cases hp : 0 < pf.length <;> simp [dashboardSummaryEffect, ht, hp]

/-- Witness for C9: with both fetched lists empty the previous totals survive,
and with the non-empty sample list the expense total is recomputed. -/
theorem dashboard_summary_retains_totals_on_empty_witness :
    (dashboardSummaryEffect samplePrevSummary [] []).totalIncome
      = samplePrevSummary.totalIncome ∧
    (dashboardSummaryEffect samplePrevSummary [] []).totalPortfolioValue
      = samplePrevSummary.totalPortfolioValue ∧
    (dashboardSummaryEffect samplePrevSummary sampleTxs []).totalExpense
      = dashboardExpense sampleTxs := by
  obtain ⟨h1, h2, -⟩ := dashboard_summary_retains_totals_on_empty samplePrevSummary [] []
  obtain ⟨-, -, h3⟩ :=
    dashboard_summary_retains_totals_on_empty samplePrevSummary sampleTxs []
  exact ⟨(h1 rfl).1, (h2 rfl).1, (h3 (by simp [sampleTxs])).2.1⟩
